import Mathlib

/-!
Verification of the lead-qualifier workflow (main.py, tools.py).

The Python program is shallowly embedded: each workflow node and the
HTTP endpoint become Lean functions over an explicit state record, and
every outbound network interaction (the LLM classifier, the LLM scorer,
the homepage fetch) is abstracted as an oracle input describing the
observable outcome of that single call.  Python exceptions become the
`Except PyError` monad; a `.error` result models an uncaught exception
propagating out of the endpoint (an HTTP 500).
-/

namespace LeadQualifier

mutual

/-- JSON values as produced by `json.loads`.  Numbers are modelled as
integers: the scorer is prompted for an integer score and no claim
touches fractional numbers.  Arrays and objects use the mutually
defined list types `JsonList` and `JsonObj`. -/
inductive Json where
  | null
  | bool (b : Bool)
  | num (n : Int)
  | str (s : String)
  | arr (xs : JsonList)
  | obj (kvs : JsonObj)
deriving Repr, DecidableEq

inductive JsonList where
  | nil
  | cons (hd : Json) (tl : JsonList)
deriving Repr, DecidableEq

inductive JsonObj where
  | nil
  | cons (k : String) (v : Json) (tl : JsonObj)
deriving Repr, DecidableEq

end

/-- Python exceptions that the embedded code can raise. -/
inductive PyError where
  | jsonDecodeError
  | attributeError
  | indexError
  | keyError
  | validationError
  | recursionError
deriving Repr, DecidableEq

/-- Outcome of one `llm.invoke(...)` call, as seen by `json.loads` on the
response content: either the content is not valid JSON (so `json.loads`
raises `json.JSONDecodeError`) or it parses to a JSON value. -/
inductive LLMResponse where
  | invalidJson
  | valid (j : Json)
deriving Repr, DecidableEq

/-- Python `dict.get` over the key/value list of a JSON object.  When
`json.loads` sees a duplicated key the later binding wins, so lookup
prefers the rightmost occurrence. -/
def dictGet (kvs : JsonObj) (k : String) : Option Json :=
  match kvs with
  | .nil => none
  | .cons k' v rest =>
    match dictGet rest k with
    | some v' => some v'
    | none => if k' = k then some v else none

/-- The incoming lead (`LeadInput` pydantic model): name, email, message.
The pydantic `EmailStr` validation happens in the API layer before the
workflow runs and is not re-modelled here; theorems about the enrichment
step quantify over arbitrary email strings. -/
structure LeadInput where
  name : String
  email : String
  message : String
deriving Repr, DecidableEq

/-- The API's response model (`LeadOutput` pydantic model).  All five
fields are declared as non-optional `str` / `int` in the source. -/
structure LeadOutput where
  status : String
  classification : String
  score : Int
  company_title : String
  drafted_reply : String
deriving Repr, DecidableEq

/-- The workflow state (`AgentState` TypedDict).  A field holding `none`
models a key absent from the Python dict; `some Json.null` models a key
present with value `None`.  `messages` is carried in the state but never
read by any node or by the endpoint. -/
structure AgentState where
  lead_input : LeadInput
  messages : List String
  classification : Option Json
  company_title : Option String
  score : Option Json
  drafted_reply : Option Json
deriving Repr, DecidableEq

/-- Node `classify_lead`: invokes the LLM once on the classification
prompt, runs `json.loads` on the content, then
`result.get("classification", "spam")`.  `json.loads` raises on invalid
JSON; `.get` on a non-dict value raises `AttributeError`; a dict missing
the key yields the default `"spam"`. -/
def classify_lead (resp : LLMResponse) : Except PyError Json :=
  match resp with
  | .invalidJson => .error .jsonDecodeError
  | .valid (.obj kvs) => .ok ((dictGet kvs "classification").getD (.str "spam"))
  | .valid _ => .error .attributeError

/-- Node `score_and_draft`, reduced to its response handling: invokes the
LLM once on the scoring prompt, runs `json.loads`, then returns
`result.get("score")` and `result.get("drafted_reply")` — with no
default, so a missing key yields Python `None` (here `Json.null`). -/
def score_and_draft (resp : LLMResponse) : Except PyError (Json × Json) :=
  match resp with
  | .invalidJson => .error .jsonDecodeError
  | .valid (.obj kvs) =>
    .ok ((dictGet kvs "score").getD .null, (dictGet kvs "drafted_reply").getD .null)
  | .valid _ => .error .attributeError

/-- The two values `decide_next_step` can return: the node name
`"enrich_lead"` or the LangGraph `END` sentinel. -/
inductive Route where
  | enrich_lead
  | end_
deriving Repr, DecidableEq

/-- Router `decide_next_step`: reads `state.get("classification")` and
compares it to the string `"sales_query"` with Python `==`.  Python
equality between values of different types is `False`, which the
`DecidableEq` on `Option Json` reflects (`none` models an absent key). -/
def decide_next_step (classification : Option Json) : Route :=
  if classification = some (Json.str "sales_query") then .enrich_lead else .end_

/-- Outcome of the `requests.get(f"https", ..., timeout=10)` call inside
`get_website_title`, including `raise_for_status` and the
BeautifulSoup parse of the body:
`timeout` — `requests.Timeout` raised;
`requestError msg` — any other `requests.RequestException` (DNS failure,
connection error, 4xx/5xx via `raise_for_status`) whose string form is
`msg`;
`success titleTag` — a body was parsed, where `titleTag = none` means the
page has no title element (`soup.title` is falsy), `some none` means a
title element exists but `soup.title.string` is `None` (an empty title or
one with several children), and `some (some s)` means the title element
has the single string `s`. -/
inductive FetchOutcome where
  | timeout
  | requestError (msg : String)
  | success (titleTag : Option (Option String))
deriving Repr, DecidableEq

/-- `get_website_title` from tools.py.  Only `requests.Timeout` and
`requests.RequestException` are caught; in the `success (some none)`
case the source evaluates `soup.title.string.strip()` with
`soup.title.string` equal to `None`, so `AttributeError` escapes. -/
def get_website_title (outcome : FetchOutcome) : Except PyError String :=
  match outcome with
  | .timeout => .ok "Could not scrape website: The request timed out."
  | .requestError msg => .ok ("Could not scrape website: " ++ msg)
  | .success none => .ok "No title tag found on homepage."
  | .success (some none) => .error .attributeError
  | .success (some (some s)) => .ok s.trim

/-- Python `str.split` for a single-character separator, on the char
list of the string: `"".split("@") = [""]`, and every occurrence of the
separator starts a new segment. -/
def splitChars (c : Char) : List Char → List (List Char)
  | [] => [[]]
  | x :: xs =>
    if x = c then [] :: splitChars c xs
    else
      match splitChars c xs with
      | [] => [[x]]
      | r :: rs => (x :: r) :: rs

/-- The segments `lead_email.split("@")` produces, as strings. -/
def emailSegments (email : String) : List String :=
  (splitChars '@' email.data).map (fun l => String.mk l)

/-- Node `enrich_lead`: takes `lead_email.split("@")[1]` — raising
`IndexError` when the email has no `"@"` — and calls
`get_website_title` on that domain.  `fetch` gives the network outcome
for each domain. -/
def enrich_lead (email : String) (fetch : String → FetchOutcome) :
    Except PyError String :=
  match (emailSegments email).get? 1 with
  | none => .error .indexError
  | some domain => get_website_title (fetch domain)

/-- The node names registered on the graph via `workflow.add_node`. -/
inductive NodeName where
  | classify_lead
  | enrich_lead
  | score_and_draft
deriving Repr, DecidableEq

/-- The outcomes of the three outbound network interactions for one
request: the classifier call (a function of the user message placed in
the prompt), the scorer call (a function of the lead name, the company
title and the message placed in the prompt), and the homepage fetch (a
function of the domain). -/
structure Oracles where
  classifier : String → LLMResponse
  scorer : String → String → String → LLMResponse
  fetch : String → FetchOutcome

/-- Runs one graph node on the state, returning the state with that
node's partial update merged in (LangGraph merges the returned dict
into the shared state).  `score_and_draft` reads
`state["company_title"]` with bracket syntax, which raises `KeyError`
when the key is absent. -/
def runNode (o : Oracles) : NodeName → AgentState → Except PyError AgentState
  | .classify_lead, s =>
    (classify_lead (o.classifier s.lead_input.message)).map
      (fun c => { s with classification := some c })
  | .enrich_lead, s =>
    (enrich_lead s.lead_input.email o.fetch).map
      (fun t => { s with company_title := some t })
  | .score_and_draft, s =>
    match s.company_title with
    | none => .error .keyError
    | some t =>
      (score_and_draft (o.scorer s.lead_input.name t s.lead_input.message)).map
        (fun p => { s with score := some p.1, drafted_reply := some p.2 })

/-- The edge structure of the compiled graph: from `classify_lead` the
conditional edge follows `decide_next_step` through the mapping
`tuple("enrich_lead" -> enrich_lead, END -> END)`; `enrich_lead` has an
unconditional edge to `score_and_draft`; `score_and_draft` goes to
`END`.  `none` is `END`. -/
def nextNode : NodeName → AgentState → Option NodeName
  | .classify_lead, s =>
    match decide_next_step s.classification with
    | .enrich_lead => some .enrich_lead
    | .end_ => none
  | .enrich_lead, _ => some .score_and_draft
  | .score_and_draft, _ => none

/-- The step loop of the compiled graph: run the current node, merge its
update, follow the edges until `END`, recording the nodes invoked.
`fuel` models LangGraph's recursion limit; exhausting it raises the
graph's recursion error. -/
def runFrom (o : Oracles) : Nat → NodeName → AgentState → List NodeName →
    Except PyError (AgentState × List NodeName)
  | 0, _, _, _ => .error .recursionError
  | fuel+1, n, s, trace =>
    match runNode o n s with
    | .error e => .error e
    | .ok s' =>
      match nextNode n s' with
      | none => .ok (s', trace ++ [n])
      | some m => runFrom o fuel m s' (trace ++ [n])

/-- LangGraph's default recursion limit. -/
def recursionLimit : Nat := 25

/-- The initial state built by the endpoint: the lead's data plus the
message list; the other keys are absent. -/
def initialState (lead : LeadInput) : AgentState :=
  { lead_input := lead
    messages := [lead.message]
    classification := none
    company_title := none
    score := none
    drafted_reply := none }

/-- `agent_app.invoke(initial_state)`: run the graph from the entry
point `classify_lead`, yielding the final state and the list of nodes
invoked, or the uncaught exception. -/
def runWorkflow (lead : LeadInput) (o : Oracles) :
    Except PyError (AgentState × List NodeName) :=
  runFrom o recursionLimit .classify_lead (initialState lead) []

/-- Pydantic validation of a `str` field of `LeadOutput`.  Only the
shapes this endpoint can actually produce (strings and `None`) are
modelled precisely; cross-type coercions, which differ between pydantic
versions, are mapped to a validation error and exercised by no theorem.
`None` for a non-optional `str` field is rejected by every pydantic
version. -/
def validateStr (v : Json) : Except PyError String :=
  match v with
  | .str s => .ok s
  | _ => .error .validationError

/-- Pydantic validation of the non-optional `int` field of
`LeadOutput`: an integer passes, `None` is rejected by every pydantic
version; other coercion corners are mapped to a validation error and
exercised by no theorem. -/
def validateInt (v : Json) : Except PyError Int :=
  match v with
  | .num n => .ok n
  | _ => .error .validationError

/-- Constructing `LeadOutput(...)`: pydantic validates the fields in
declaration order and raises `ValidationError` on the first failure.
`status` is always one of the two literal strings in the source. -/
def validateLeadOutput (status : String)
    (classification score company_title drafted_reply : Json) :
    Except PyError LeadOutput := do
  let c ← validateStr classification
  let sc ← validateInt score
  let ct ← validateStr company_title
  let dr ← validateStr drafted_reply
  return { status := status, classification := c, score := sc,
           company_title := ct, drafted_reply := dr }

/-- Python `final_state.get(key)` for a state key holding a JSON value:
an absent key reads as `None`. -/
def stateVal (v : Option Json) : Json :=
  v.getD .null

/-- Python `final_state.get("company_title")`: the enrichment node only
ever stores strings there; an absent key reads as `None`. -/
def stateValS (v : Option String) : Json :=
  (v.map Json.str).getD .null

/-- One row appended to the `leads` table by `add_lead_to_db`, taken
from `complete_lead_data = tuple(**lead_input, **final_state)` via
`.get` on each column. -/
structure LeadRecord where
  name : String
  email : String
  message : String
  company_title : Json
  classification : Json
  score : Json
  drafted_reply : Json
deriving Repr, DecidableEq

/-- The row `add_lead_to_db` inserts for a given lead and final state. -/
def leadRecord (lead : LeadInput) (final : AgentState) : LeadRecord :=
  { name := lead.name
    email := lead.email
    message := lead.message
    company_title := stateValS final.company_title
    classification := stateVal final.classification
    score := stateVal final.score
    drafted_reply := stateVal final.drafted_reply }

/-- The fixed `drafted_reply` of the non-sales response. -/
def nonSalesReply : String :=
  "N/A - This lead was classified as non-sales and not processed further."

/-- The `POST /qualify-lead` endpoint `qualify_lead`: build the initial
state, invoke the graph, then branch on
`final_state.get("classification") != "sales_query"`.  The non-sales
branch returns the fixed output with `score=0`, `company_title="N/A"`
and performs no database write (the `add_lead_to_db` call there is
commented out in the source); the sales branch first appends the lead
row to the database and then builds the response from the final state.
The first component lists the database writes performed; the second is
the response or the uncaught exception. -/
def qualify_lead (lead : LeadInput) (o : Oracles) :
    List LeadRecord × Except PyError LeadOutput :=
  match runWorkflow lead o with
  | .error e => ([], .error e)
  | .ok (final, _) =>
    if final.classification ≠ some (Json.str "sales_query") then
      ([], validateLeadOutput "SUCCESS - NON-SALES LEAD"
        (stateVal final.classification) (.num 0) (.str "N/A")
        (.str nonSalesReply))
    else
      ([leadRecord lead final],
       validateLeadOutput "SUCCESS - SALES LEAD PROCESSED"
        (stateVal final.classification) (stateVal final.score)
        (stateValS final.company_title) (stateVal final.drafted_reply))

/-- Whether a state field is defined with a non-null value: `none`
models an absent key, `some Json.null` a key set to Python `None`. -/
def fieldDefined (v : Option Json) : Bool :=
  match v with
  | some Json.null => false
  | some _ => true
  | none => false

/-- An oracle bundle whose three outcomes are fixed, independent of the
prompt contents — the deterministic fakes used to evaluate concrete
runs. -/
def constOracles (cl : LLMResponse) (sc : LLMResponse) (f : FetchOutcome) :
    Oracles :=
  { classifier := fun _ => cl, scorer := fun _ _ _ => sc, fetch := fun _ => f }

/-- A sample sales lead. -/
def sampleLead : LeadInput :=
  ⟨"Alice", "alice@acme.com", "We need AI consulting, budget is ready"⟩

/-- A sample job-seeker lead. -/
def jobLead : LeadInput :=
  ⟨"Bob", "bob@example.com", "Do you have any open engineering roles?"⟩

/-- A classifier response carrying `classification = "sales_query"`. -/
def salesClassifier : LLMResponse :=
  .valid (.obj (.cons "classification" (.str "sales_query") .nil))

/-- A scorer response that is a valid JSON object with no keys. -/
def emptyScorer : LLMResponse :=
  .valid (.obj .nil)

/-- A scorer response carrying both expected keys. -/
def goodScorer : LLMResponse :=
  .valid (.obj (.cons "score" (.num 85)
    (.cons "drafted_reply" (.str "Hello Alice, thanks for reaching out.") .nil)))

/-- A fetch outcome used in the concrete runs: the request timed out,
so the lookup returns its fixed timeout sentinel and enrichment still
completes. -/
def timeoutFetch : FetchOutcome :=
  .timeout

/-- The company title the concrete runs store: the timeout sentinel. -/
def timeoutTitle : String :=
  "Could not scrape website: The request timed out."

/-- Oracles for a sales lead whose scorer response misses both keys. -/
def oMissingScore : Oracles :=
  constOracles salesClassifier emptyScorer timeoutFetch

/-- Oracles for a fully successful sales run. -/
def oGoodSales : Oracles :=
  constOracles salesClassifier goodScorer timeoutFetch

/-- Oracles classifying the lead as a job application. -/
def oJob : Oracles :=
  constOracles (.valid (.obj (.cons "classification" (.str "job_application") .nil)))
    emptyScorer timeoutFetch

/-- Oracles whose classifier answers with a string outside the four
prompted categories. -/
def oBanana : Oracles :=
  constOracles (.valid (.obj (.cons "classification" (.str "banana") .nil)))
    emptyScorer timeoutFetch

/-- The final state of the sales run whose scorer response misses both
keys: both fields set to Python `None`. -/
def finalMissingScore : AgentState :=
  ⟨sampleLead, [sampleLead.message], some (.str "sales_query"),
   some timeoutTitle, some .null, some .null⟩

/-- The final state of the fully successful sales run. -/
def finalGoodSales : AgentState :=
  ⟨sampleLead, [sampleLead.message], some (.str "sales_query"),
   some timeoutTitle, some (.num 85),
   some (.str "Hello Alice, thanks for reaching out.")⟩

/-! Helper lemmas shared by the claim theorems. -/

theorem splitChars_ne_nil (c : Char) (l : List Char) : splitChars c l ≠ [] := by
  induction l with
  | nil => simp [splitChars]
  | cons x xs ih =>
    simp only [splitChars]
    split
    · simp
    · split
      · simp
      · simp

theorem length_splitChars (c : Char) (l : List Char) :
    (splitChars c l).length = l.count c + 1 := by
  induction l with
  | nil => simp [splitChars]
  | cons x xs ih =>
    by_cases h : x = c
    · subst h
      simp [splitChars, List.count_cons, ih]
    · cases hs : splitChars c xs with
      | nil => exact absurd hs (splitChars_ne_nil c xs)
      | cons r rs =>
        rw [hs] at ih
        simp [splitChars, h, hs, List.count_cons, Ne.symm h] at ih ⊢
        omega

theorem one_lt_length_splitChars_iff (c : Char) (l : List Char) :
    1 < (splitChars c l).length ↔ c ∈ l := by
  rw [length_splitChars]
  rw [← List.count_pos_iff]
  omega

theorem runFrom_step (o : Oracles) (fuel : Nat) (n : NodeName)
    (s : AgentState) (tr : List NodeName) :
    runFrom o (fuel + 1) n s tr =
      match runNode o n s with
      | .error e => .error e
      | .ok s' =>
        match nextNode n s' with
        | none => .ok (s', tr ++ [n])
        | some m => runFrom o fuel m s' (tr ++ [n]) := rfl

theorem runFrom25 (o : Oracles) (n : NodeName) (s : AgentState)
    (tr : List NodeName) :
    runFrom o 25 n s tr =
      match runNode o n s with
      | .error e => .error e
      | .ok s' =>
        match nextNode n s' with
        | none => .ok (s', tr ++ [n])
        | some m => runFrom o 24 m s' (tr ++ [n]) := rfl

theorem runFrom24 (o : Oracles) (n : NodeName) (s : AgentState)
    (tr : List NodeName) :
    runFrom o 24 n s tr =
      match runNode o n s with
      | .error e => .error e
      | .ok s' =>
        match nextNode n s' with
        | none => .ok (s', tr ++ [n])
        | some m => runFrom o 23 m s' (tr ++ [n]) := rfl

theorem runFrom23 (o : Oracles) (n : NodeName) (s : AgentState)
    (tr : List NodeName) :
    runFrom o 23 n s tr =
      match runNode o n s with
      | .error e => .error e
      | .ok s' =>
        match nextNode n s' with
        | none => .ok (s', tr ++ [n])
        | some m => runFrom o 22 m s' (tr ++ [n]) := rfl

/-- Full characterization of one graph run in terms of the three node
functions: classify; route on the exact string `"sales_query"`; on the
sales branch enrich then score, otherwise stop after classification. -/
theorem runWorkflow_eq (lead : LeadInput) (o : Oracles) :
    runWorkflow lead o =
      match classify_lead (o.classifier lead.message) with
      | .error e => .error e
      | .ok c =>
        if c = Json.str "sales_query" then
          match enrich_lead lead.email o.fetch with
          | .error e => .error e
          | .ok t =>
            match score_and_draft (o.scorer lead.name t lead.message) with
            | .error e => .error e
            | .ok p =>
              .ok (⟨lead, [lead.message], some c, some t, some p.1, some p.2⟩,
                   [.classify_lead, .enrich_lead, .score_and_draft])
        else
          .ok (⟨lead, [lead.message], some c, none, none, none⟩,
               [.classify_lead]) := by
  show runFrom o 25 .classify_lead (initialState lead) [] = _
  rw [runFrom25]
  cases h : classify_lead (o.classifier lead.message) with
  | error e => simp [runNode, initialState, h, Except.map]
  | ok c =>
    simp only [runNode, initialState, h, Except.map]
    by_cases hc : c = Json.str "sales_query"
    · subst hc
      simp only [nextNode, decide_next_step, if_pos rfl, if_true]
      rw [runFrom24]
      cases he : enrich_lead lead.email o.fetch with
      | error e => simp [runNode, he, Except.map]
      | ok t =>
        simp only [runNode, he, Except.map, nextNode]
        rw [runFrom23]
        cases hs : score_and_draft (o.scorer lead.name t lead.message) with
        | error e => simp [runNode, hs, Except.map]
        | ok p => simp [runNode, hs, Except.map, nextNode, initialState]
    · simp [nextNode, decide_next_step, hc, initialState]

/-- Inverting a non-sales run: when the classifier call yields a
classification other than the exact string `"sales_query"`, the run
terminates after classification alone and the endpoint answers the
fixed non-sales output with no database write. -/
theorem nonsales_run (lead : LeadInput) (o : Oracles) (c : String)
    (h : classify_lead (o.classifier lead.message) = .ok (Json.str c))
    (hne : c ≠ "sales_query") :
    runWorkflow lead o =
      .ok (⟨lead, [lead.message], some (.str c), none, none, none⟩,
           [.classify_lead]) ∧
    qualify_lead lead o =
      ([], .ok ⟨"SUCCESS - NON-SALES LEAD", c, 0, "N/A", nonSalesReply⟩) := by
  have hrun : runWorkflow lead o =
      .ok (⟨lead, [lead.message], some (.str c), none, none, none⟩,
           [.classify_lead]) := by
    rw [runWorkflow_eq, h]
    simp [hne]
  refine ⟨hrun, ?_⟩
  simp only [qualify_lead, hrun]
  simp only [validateLeadOutput, validateStr, validateInt, stateVal, hne,
    Option.getD]
  simp [hne]
  rfl

/-- Inverting a successful sales run: the enrichment and the scoring
calls both returned, and the final state and trace are determined by
their results. -/
theorem sales_run_inv (lead : LeadInput) (o : Oracles) (final : AgentState)
    (tr : List NodeName)
    (h : runWorkflow lead o = .ok (final, tr))
    (hc : classify_lead (o.classifier lead.message) = .ok (Json.str "sales_query")) :
    ∃ t p, enrich_lead lead.email o.fetch = .ok t ∧
      score_and_draft (o.scorer lead.name t lead.message) = .ok p ∧
      final = ⟨lead, [lead.message], some (.str "sales_query"),
               some t, some p.1, some p.2⟩ ∧
      tr = [.classify_lead, .enrich_lead, .score_and_draft] := by
  simp only [runWorkflow_eq, hc] at h
  rw [if_pos trivial] at h
  cases he : enrich_lead lead.email o.fetch with
  | error e =>
    simp only [he] at h
    exact absurd h (by simp)
  | ok t =>
    simp only [he] at h
    cases hs : score_and_draft (o.scorer lead.name t lead.message) with
    | error e =>
      simp only [hs] at h
      exact absurd h (by simp)
    | ok p =>
      simp only [hs, Except.ok.injEq, Prod.mk.injEq] at h
      exact ⟨t, p, rfl, hs, h.1.symm, h.2.symm⟩

/-- Inverting any successful run: the classifier call returned some
value and it is exactly the stored classification. -/
theorem classification_inv (lead : LeadInput) (o : Oracles)
    (final : AgentState) (tr : List NodeName)
    (h : runWorkflow lead o = .ok (final, tr)) :
    ∃ c, classify_lead (o.classifier lead.message) = .ok c ∧
      final.classification = some c := by
  cases hcl : classify_lead (o.classifier lead.message) with
  | error e =>
    simp only [runWorkflow_eq, hcl] at h
    exact absurd h (by simp)
  | ok c =>
    refine ⟨c, rfl, ?_⟩
    simp only [runWorkflow_eq, hcl] at h
    by_cases hc : c = Json.str "sales_query"
    · subst hc
      rw [if_pos rfl] at h
      cases he : enrich_lead lead.email o.fetch with
      | error e =>
        simp only [he] at h
        exact absurd h (by simp)
      | ok t =>
        simp only [he] at h
        cases hs : score_and_draft (o.scorer lead.name t lead.message) with
        | error e =>
          simp only [hs] at h
          exact absurd h (by simp)
        | ok p =>
          simp only [hs, Except.ok.injEq, Prod.mk.injEq] at h
          rw [← h.1]
    · rw [if_neg hc] at h
      simp only [Except.ok.injEq, Prod.mk.injEq] at h
      rw [← h.1]

/-- Inverting a non-sales run, given the classifier result: the run
stops after classification and the final state keeps the three
sales-path fields absent. -/
theorem nonsales_run_inv (lead : LeadInput) (o : Oracles)
    (final : AgentState) (tr : List NodeName) (c : Json)
    (h : runWorkflow lead o = .ok (final, tr))
    (hcl : classify_lead (o.classifier lead.message) = .ok c)
    (hc : c ≠ Json.str "sales_query") :
    final = ⟨lead, [lead.message], some c, none, none, none⟩ ∧
    tr = [.classify_lead] := by
  simp only [runWorkflow_eq, hcl] at h
  rw [if_neg hc] at h
  simp only [Except.ok.injEq, Prod.mk.injEq] at h
  exact ⟨h.1.symm, h.2.symm⟩

/-- Inverting a successful scoring call: the scorer response had to be
a valid JSON object, and the returned pair is one `.get` per key. -/
theorem score_and_draft_ok_inv (resp : LLMResponse) (p : Json × Json)
    (h : score_and_draft resp = .ok p) :
    ∃ kvs, resp = .valid (.obj kvs) ∧
      p = ((dictGet kvs "score").getD .null,
           (dictGet kvs "drafted_reply").getD .null) := by
  cases resp with
  | invalidJson => simp [score_and_draft] at h
  | valid j =>
    cases j with
    | obj kvs => exact ⟨kvs, rfl, (Except.ok.inj h).symm⟩
    | null => simp [score_and_draft] at h
    | bool b => simp [score_and_draft] at h
    | num n => simp [score_and_draft] at h
    | str s => simp [score_and_draft] at h
    | arr xs => simp [score_and_draft] at h

/-- Every pydantic check of the `int` field either rejects with a
validation error or accepts an integer. -/
theorem validateInt_cases (v : Json) :
    validateInt v = .error PyError.validationError ∨
    ∃ n, v = Json.num n ∧ validateInt v = .ok n := by
  cases v with
  | num n => exact Or.inr ⟨n, rfl, rfl⟩
  | null => exact Or.inl rfl
  | bool b => exact Or.inl rfl
  | str s => exact Or.inl rfl
  | arr xs => exact Or.inl rfl
  | obj kvs => exact Or.inl rfl

/-- Unfolding the endpoint on a completed run. -/
theorem qualify_lead_eq (lead : LeadInput) (o : Oracles)
    (final : AgentState) (tr : List NodeName)
    (h : runWorkflow lead o = .ok (final, tr)) :
    qualify_lead lead o =
      if final.classification ≠ some (Json.str "sales_query") then
        ([], validateLeadOutput "SUCCESS - NON-SALES LEAD"
          (stateVal final.classification) (.num 0) (.str "N/A")
          (.str nonSalesReply))
      else
        ([leadRecord lead final],
         validateLeadOutput "SUCCESS - SALES LEAD PROCESSED"
          (stateVal final.classification) (stateVal final.score)
          (stateValS final.company_title) (stateVal final.drafted_reply)) := by
  simp only [qualify_lead, h]

/-- With a null `drafted_reply` value, building `LeadOutput` fails
pydantic validation whatever the score value is. -/
theorem validateLeadOutput_null_drafted (status : String) (v : Json)
    (t : String) :
    validateLeadOutput status (.str "sales_query") v (.str t) .null =
      .error PyError.validationError := by
  cases v <;> rfl

/-! Claim theorems. -/

/-- C1: the claim states that an invalid-JSON classifier response, or a
JSON object omitting `"classification"`, both yield the stored
classification `"spam"` without failing the request.  The code
satisfies only the missing-key half: on invalid JSON, `json.loads`
raises and the request fails, contradicting the source's own inline
comment.  This theorem evaluates the classification step on both
inputs: invalid JSON raises `json.JSONDecodeError`; an object without
the key defaults to `"spam"`. -/
theorem c1_invalid_json_raises_missing_key_defaults :
    classify_lead LLMResponse.invalidJson = .error PyError.jsonDecodeError ∧
    classify_lead (.valid (.obj .nil)) = .ok (.str "spam") :=
  ⟨rfl, rfl⟩

/-- C3: the router is a pure function of the classification value that
returns the enrichment route exactly when the value is the string
`"sales_query"` (case-sensitive, exact equality), and the terminate
route for every other value — case variants, non-strings, or an absent
key included. -/
theorem c3_router_exact_string_match :
    ∀ v : Option Json,
    (decide_next_step v = Route.enrich_lead ↔ v = some (Json.str "sales_query")) ∧
    (v ≠ some (Json.str "sales_query") → decide_next_step v = Route.end_) := by
  intro v
  constructor
  · constructor
    · intro h
      by_contra hne
      simp [decide_next_step, hne] at h
    · intro h
      simp [decide_next_step, h]
  · intro h
    simp [decide_next_step, h]

/-- C3 witness: the case variant `"Sales_Query"` routes to terminate,
and the exact token routes to enrichment. -/
theorem c3_router_exact_string_match_witness :
    decide_next_step (some (Json.str "Sales_Query")) = Route.end_ ∧
    decide_next_step (some (Json.str "sales_query")) = Route.enrich_lead :=
  ⟨(c3_router_exact_string_match (some (Json.str "Sales_Query"))).2 (by decide),
   (c3_router_exact_string_match (some (Json.str "sales_query"))).1.mpr rfl⟩

/-- C4: whenever the classifier call yields any string other than
`"sales_query"`, the run terminates with the trace `[classify_lead]`
(so neither `enrich_lead` nor `score_and_draft` is ever invoked), and
the endpoint's response has `score = 0` and `company_title = "N/A"`. -/
theorem c4_nonsales_fixed_output :
    ∀ (lead : LeadInput) (o : Oracles) (c : String),
    classify_lead (o.classifier lead.message) = .ok (Json.str c) →
    c ≠ "sales_query" →
    runWorkflow lead o =
      .ok (⟨lead, [lead.message], some (.str c), none, none, none⟩,
           [NodeName.classify_lead]) ∧
    (qualify_lead lead o).2 =
      .ok ⟨"SUCCESS - NON-SALES LEAD", c, 0, "N/A", nonSalesReply⟩ := by
  intro lead o c h hne
  obtain ⟨h1, h2⟩ := nonsales_run lead o c h hne
  exact ⟨h1, by rw [h2]⟩

/-- C4 witness: a lead classified `"job_application"` gets the fixed
non-sales output and a single-node trace. -/
theorem c4_nonsales_fixed_output_witness :
    runWorkflow jobLead oJob =
      .ok (⟨jobLead, [jobLead.message], some (.str "job_application"),
            none, none, none⟩,
           [NodeName.classify_lead]) ∧
    (qualify_lead jobLead oJob).2 =
      .ok ⟨"SUCCESS - NON-SALES LEAD", "job_application", 0, "N/A",
           nonSalesReply⟩ :=
  c4_nonsales_fixed_output jobLead oJob "job_application" rfl (by decide)

/-- C5 counterexample: the claim states the website title lookup never
raises for any input.  On a page whose title element exists but whose
`.string` is `None` (an empty `title` or one containing further
markup), the source evaluates `None.strip()` and the resulting
`AttributeError` is caught by neither `except` clause. -/
theorem c5_counterexample :
    get_website_title (FetchOutcome.success (some none)) =
      .error PyError.attributeError := rfl

/-- C5 (amended): except for the one outcome in which the title element
exists with `soup.title.string` equal to `None`, the lookup always
returns a string: the trimmed title text on success, the fixed no-title
sentinel, the fixed timed-out sentinel on timeout, and the sentinel
embedding the error description on any other request failure. -/
theorem c5_total_except_stringless_title :
    (∀ r : FetchOutcome, r ≠ .success (some none) →
      ∃ s, get_website_title r = .ok s) ∧
    (∀ t, get_website_title (.success (some (some t))) = .ok t.trim) ∧
    get_website_title (.success none) = .ok "No title tag found on homepage." ∧
    get_website_title .timeout =
      .ok "Could not scrape website: The request timed out." ∧
    (∀ e, get_website_title (.requestError e) =
      .ok ("Could not scrape website: " ++ e)) := by
  refine ⟨?_, fun t => rfl, rfl, rfl, fun e => rfl⟩
  intro r hr
  cases r with
  | timeout => exact ⟨_, rfl⟩
  | requestError e => exact ⟨_, rfl⟩
  | success tt =>
    cases tt with
    | none => exact ⟨_, rfl⟩
    | some ts =>
      cases ts with
      | none => exact absurd rfl hr
      | some s => exact ⟨_, rfl⟩

/-- C5 witness: on a timeout the lookup returns a string. -/
theorem c5_total_except_stringless_title_witness :
    ∃ s, get_website_title FetchOutcome.timeout = .ok s :=
  c5_total_except_stringless_title.1 FetchOutcome.timeout (by decide)

/-- C7: the enrichment step performs no validation of its own.  For
every email containing at least one `"@"` it takes the second segment
of the `"@"`-split as the domain and returns exactly the website
lookup's result on that domain; for every email with no `"@"`,
`lead_email.split("@")[1]` raises `IndexError`. -/
theorem c7_domain_second_segment :
    ∀ (email : String) (fetch : String → FetchOutcome),
    ('@' ∈ email.data →
      ∃ domain, (emailSegments email).get? 1 = some domain ∧
        enrich_lead email fetch = get_website_title (fetch domain)) ∧
    ('@' ∉ email.data →
      enrich_lead email fetch = .error PyError.indexError) := by
  intro email fetch
  constructor
  · intro hat
    have hlen : 1 < (emailSegments email).length := by
      rw [emailSegments, List.length_map]
      exact (one_lt_length_splitChars_iff '@' email.data).mpr hat
    obtain ⟨d, hd⟩ : ∃ d, (emailSegments email).get? 1 = some d := by
      cases hg : (emailSegments email).get? 1 with
      | none => rw [List.get?_eq_none] at hg; omega
      | some d => exact ⟨d, rfl⟩
    refine ⟨d, hd, ?_⟩
    rw [List.get?_eq_getElem?] at hd
    simp [enrich_lead, hd]
  · intro hat
    have hlen : (emailSegments email).length = 1 := by
      rw [emailSegments, List.length_map, length_splitChars]
      have : email.data.count '@' = 0 := by
        rw [List.count_eq_zero]
        exact hat
      omega
    have hg : (emailSegments email).get? 1 = none := by
      rw [List.get?_eq_none]
      omega
    rw [List.get?_eq_getElem?] at hg
    simp [enrich_lead, hg]

/-- C7 witness: with one `"@"` the lookup runs on the part after it;
with none the step raises `IndexError`. -/
theorem c7_domain_second_segment_witness :
    (∃ domain, (emailSegments "alice@acme.com").get? 1 = some domain ∧
      enrich_lead "alice@acme.com" (fun _ => FetchOutcome.timeout) =
        get_website_title ((fun _ => FetchOutcome.timeout) domain)) ∧
    enrich_lead "no-at-sign" (fun _ => FetchOutcome.timeout) =
      .error PyError.indexError :=
  ⟨(c7_domain_second_segment "alice@acme.com" (fun _ => FetchOutcome.timeout)).1
     (by decide),
   (c7_domain_second_segment "no-at-sign" (fun _ => FetchOutcome.timeout)).2
     (by decide)⟩

/-- C8: on every completed run, the endpoint appends exactly one row to
the leads table when the final classification is the string
`"sales_query"`, and performs no write otherwise. -/
theorem c8_write_iff_sales :
    ∀ (lead : LeadInput) (o : Oracles) (final : AgentState)
      (tr : List NodeName),
    runWorkflow lead o = .ok (final, tr) →
    (qualify_lead lead o).1 =
      (if final.classification = some (Json.str "sales_query")
       then [leadRecord lead final] else []) := by
  intro lead o final tr h
  rw [qualify_lead_eq lead o final tr h]
  by_cases hc : final.classification = some (Json.str "sales_query")
  · simp [hc]
  · simp [hc]

/-- C8 witness: the fully successful sales run writes exactly its lead
row; the job-application run writes nothing. -/
theorem c8_write_iff_sales_witness :
    (qualify_lead sampleLead oGoodSales).1 =
      [leadRecord sampleLead finalGoodSales] ∧
    (qualify_lead jobLead oJob).1 = [] := by
  constructor
  · rw [c8_write_iff_sales sampleLead oGoodSales finalGoodSales
      [.classify_lead, .enrich_lead, .score_and_draft] rfl]
    rfl
  · rw [c8_write_iff_sales jobLead oJob
      ⟨jobLead, [jobLead.message], some (.str "job_application"),
       none, none, none⟩
      [.classify_lead] rfl]
    rfl

/-- C9: on every run that completes with the classifier call yielding
`"sales_query"`, the trace of node invocations is exactly
`classify_lead`, then `enrich_lead`, then `score_and_draft` — each node
invoked exactly once, in that order, with classification never
revisited.  Each node consults its external collaborator exactly once
per invocation, so every external call is attempted exactly once. -/
theorem c9_sales_trace_order :
    ∀ (lead : LeadInput) (o : Oracles) (final : AgentState)
      (tr : List NodeName),
    runWorkflow lead o = .ok (final, tr) →
    classify_lead (o.classifier lead.message) = .ok (Json.str "sales_query") →
    tr = [.classify_lead, .enrich_lead, .score_and_draft] ∧
    tr.count NodeName.classify_lead = 1 ∧
    tr.count NodeName.enrich_lead = 1 ∧
    tr.count NodeName.score_and_draft = 1 := by
  intro lead o final tr h hc
  obtain ⟨t, p, he, hs, hfin, htr⟩ := sales_run_inv lead o final tr h hc
  subst htr
  exact ⟨rfl, by decide, by decide, by decide⟩

/-- C9 witness: the successful sales run has the three-node trace. -/
theorem c9_sales_trace_order_witness :
    ([NodeName.classify_lead, NodeName.enrich_lead,
      NodeName.score_and_draft] : List NodeName) =
      [.classify_lead, .enrich_lead, .score_and_draft] ∧
    List.count NodeName.classify_lead
      [NodeName.classify_lead, NodeName.enrich_lead,
       NodeName.score_and_draft] = 1 ∧
    List.count NodeName.enrich_lead
      [NodeName.classify_lead, NodeName.enrich_lead,
       NodeName.score_and_draft] = 1 ∧
    List.count NodeName.score_and_draft
      [NodeName.classify_lead, NodeName.enrich_lead,
       NodeName.score_and_draft] = 1 :=
  c9_sales_trace_order sampleLead oGoodSales finalGoodSales
    [.classify_lead, .enrich_lead, .score_and_draft] rfl rfl

/-- C10: a classifier response that is a valid JSON object carrying any
string under `"classification"` is stored verbatim — no validation
against the four prompted categories — and when that string is not
`"sales_query"` the router terminates the run and the endpoint returns
the string unaltered in the response's classification field. -/
theorem c10_unvalidated_classification_passthrough :
    ∀ (lead : LeadInput) (o : Oracles) (kvs : JsonObj) (v : String),
    o.classifier lead.message = LLMResponse.valid (.obj kvs) →
    dictGet kvs "classification" = some (Json.str v) →
    classify_lead (o.classifier lead.message) = .ok (.str v) ∧
    (v ≠ "sales_query" →
      runWorkflow lead o =
        .ok (⟨lead, [lead.message], some (.str v), none, none, none⟩,
             [NodeName.classify_lead]) ∧
      (qualify_lead lead o).2 =
        .ok ⟨"SUCCESS - NON-SALES LEAD", v, 0, "N/A", nonSalesReply⟩) := by
  intro lead o kvs v h1 h2
  have hcl : classify_lead (o.classifier lead.message) = .ok (.str v) := by
    rw [h1]
    simp [classify_lead, h2]
  refine ⟨hcl, fun hne => ?_⟩
  obtain ⟨ha, hb⟩ := nonsales_run lead o v hcl hne
  exact ⟨ha, by rw [hb]⟩

/-- C10 witness: the out-of-category string `"banana"` is stored and
returned verbatim, and routed as non-sales. -/
theorem c10_unvalidated_classification_passthrough_witness :
    classify_lead (oBanana.classifier jobLead.message) = .ok (.str "banana") ∧
    runWorkflow jobLead oBanana =
      .ok (⟨jobLead, [jobLead.message], some (.str "banana"),
            none, none, none⟩,
           [NodeName.classify_lead]) ∧
    (qualify_lead jobLead oBanana).2 =
      .ok ⟨"SUCCESS - NON-SALES LEAD", "banana", 0, "N/A", nonSalesReply⟩ := by
  obtain ⟨h1, h2⟩ := c10_unvalidated_classification_passthrough jobLead oBanana
    (.cons "classification" (.str "banana") .nil) "banana" rfl rfl
  exact ⟨h1, h2 (by decide)⟩

/-- C2 counterexample: the claim says a scorer response missing
`"score"`/`"drafted_reply"` leads to null-valued fields in the API
response.  On this concrete sales run with an empty scorer object, the
state fields are indeed left as Python `None`, but `LeadOutput`
declares `score: int` and `drafted_reply: str` non-optional, so
constructing the response raises a validation error instead of
returning nulls. -/
theorem c2_counterexample :
    runWorkflow sampleLead oMissingScore =
      .ok (finalMissingScore,
           [.classify_lead, .enrich_lead, .score_and_draft]) ∧
    finalMissingScore.score = some Json.null ∧
    finalMissingScore.drafted_reply = some Json.null ∧
    (qualify_lead sampleLead oMissingScore).2 =
      .error PyError.validationError :=
  ⟨rfl, rfl, rfl, rfl⟩

/-- C2 (amended): on every completed sales run whose scorer response is
a valid JSON object, a missing `"score"` or `"drafted_reply"` key
leaves the corresponding state field as Python `None` rather than a
default — the deliberate asymmetry versus the classification step —
but the sales response then fails pydantic validation of the
non-optional `int`/`str` output fields, so the caller receives an
error rather than a null-carrying response. -/
theorem c2_missing_scorer_keys_null_state_failing_response :
    ∀ (lead : LeadInput) (o : Oracles) (final : AgentState)
      (tr : List NodeName) (kvs : JsonObj),
    runWorkflow lead o = .ok (final, tr) →
    final.classification = some (Json.str "sales_query") →
    o.scorer = (fun _ _ _ => LLMResponse.valid (.obj kvs)) →
    (dictGet kvs "score" = none ∨ dictGet kvs "drafted_reply" = none) →
    final.score = some ((dictGet kvs "score").getD .null) ∧
    final.drafted_reply = some ((dictGet kvs "drafted_reply").getD .null) ∧
    (qualify_lead lead o).2 = .error PyError.validationError := by
  intro lead o final tr kvs hrun hcls hsc hmiss
  obtain ⟨c, hcl, hc⟩ := classification_inv lead o final tr hrun
  rw [hcls] at hc
  have hc2 : c = Json.str "sales_query" := (Option.some.inj hc).symm
  subst hc2
  obtain ⟨t, p, he, hs, hfin, htr⟩ := sales_run_inv lead o final tr hrun hcl
  rw [hsc] at hs
  simp only [score_and_draft, Except.ok.injEq] at hs
  subst hs
  subst hfin
  refine ⟨rfl, rfl, ?_⟩
  rw [qualify_lead_eq lead o _ tr hrun]
  split
  · rename_i hcond
    exact absurd rfl hcond
  · rcases hmiss with h | h
    · rw [h]
      rfl
    · rw [h]
      exact validateLeadOutput_null_drafted "SUCCESS - SALES LEAD PROCESSED"
        ((dictGet kvs "score").getD .null) t

/-- C2 witness: the concrete sales run with an empty scorer object. -/
theorem c2_missing_scorer_keys_null_state_failing_response_witness :
    finalMissingScore.score = some ((dictGet .nil "score").getD .null) ∧
    finalMissingScore.drafted_reply =
      some ((dictGet .nil "drafted_reply").getD .null) ∧
    (qualify_lead sampleLead oMissingScore).2 =
      .error PyError.validationError :=
  c2_missing_scorer_keys_null_state_failing_response sampleLead oMissingScore
    finalMissingScore [.classify_lead, .enrich_lead, .score_and_draft] .nil
    rfl rfl rfl (Or.inl rfl)

/-- C6 counterexample: the claim's invariant says the three sales-path
fields are defined (non-null) exactly when the classification is
`"sales_query"`.  This terminal state is classified `"sales_query"`,
yet `score` and `drafted_reply` hold `None`: the scorer replied with a
JSON object missing both keys. -/
theorem c6_counterexample :
    runWorkflow sampleLead oMissingScore =
      .ok (finalMissingScore,
           [.classify_lead, .enrich_lead, .score_and_draft]) ∧
    finalMissingScore.classification = some (Json.str "sales_query") ∧
    fieldDefined finalMissingScore.score = false ∧
    fieldDefined finalMissingScore.drafted_reply = false :=
  ⟨rfl, rfl, rfl, rfl⟩

/-- C6 (amended): in every terminal state, the sales-path fields are
set only if the classification is exactly `"sales_query"`; conversely,
on a sales-classified terminal state `company_title` always holds a
string, while `score` and `drafted_reply` hold the scorer object's
values, which are `None` exactly when the scorer omitted (or nulled)
the respective key. -/
theorem c6_fields_defined_only_if_sales :
    ∀ (lead : LeadInput) (o : Oracles) (final : AgentState)
      (tr : List NodeName),
    runWorkflow lead o = .ok (final, tr) →
    (final.classification ≠ some (Json.str "sales_query") →
      final.company_title = none ∧ final.score = none ∧
      final.drafted_reply = none) ∧
    (final.classification = some (Json.str "sales_query") →
      ∃ t kvs, final.company_title = some t ∧
        o.scorer lead.name t lead.message = LLMResponse.valid (.obj kvs) ∧
        final.score = some ((dictGet kvs "score").getD .null) ∧
        final.drafted_reply =
          some ((dictGet kvs "drafted_reply").getD .null)) := by
  intro lead o final tr hrun
  obtain ⟨c, hcl, hc⟩ := classification_inv lead o final tr hrun
  constructor
  · intro hne
    have hcne : c ≠ Json.str "sales_query" := by
      intro hh
      subst hh
      exact hne hc
    obtain ⟨hfin, htr⟩ := nonsales_run_inv lead o final tr c hrun hcl hcne
    subst hfin
    exact ⟨rfl, rfl, rfl⟩
  · intro hcs
    rw [hcs] at hc
    have hc2 : c = Json.str "sales_query" := (Option.some.inj hc).symm
    subst hc2
    obtain ⟨t, p, he, hs, hfin, htr⟩ := sales_run_inv lead o final tr hrun hcl
    obtain ⟨kvs, hresp, hp⟩ := score_and_draft_ok_inv _ p hs
    subst hp
    subst hfin
    exact ⟨t, kvs, rfl, hresp, rfl, rfl⟩

/-- C6 witness: the fully successful sales run carries a string title,
an integer score and a string reply, all sourced from the scorer
object. -/
theorem c6_fields_defined_only_if_sales_witness :
    ∃ t kvs, finalGoodSales.company_title = some t ∧
      oGoodSales.scorer sampleLead.name t sampleLead.message =
        LLMResponse.valid (.obj kvs) ∧
      finalGoodSales.score = some ((dictGet kvs "score").getD .null) ∧
      finalGoodSales.drafted_reply =
        some ((dictGet kvs "drafted_reply").getD .null) :=
  (c6_fields_defined_only_if_sales sampleLead oGoodSales finalGoodSales
    [.classify_lead, .enrich_lead, .score_and_draft] rfl).2 rfl

end LeadQualifier
